import Mathlib

/-!
# Wildlife Health Watch dashboard — verified model of the filter-and-aggregate pipeline

Shallow embedding of the two source files of the repository:

* `src/data/generate_data.py` — the standalone Record Generator
  (`generate_surveillance_data`), which draws each field of a synthetic
  surveillance record from Python's `random` module (weighted choices,
  `random.randint`) and from `np.random.normal` for coordinate noise, then
  builds a pandas DataFrame and sorts it by `report_date`.
* `src/app.py` — the Streamlit dashboard, containing its own inline generator
  (`load_data`, which uses `np.random` for every draw), the sidebar filter
  pipeline in `main`, and the aggregation helpers (`create_timeline`,
  `create_species_chart`, `create_syndrome_chart`), scalar metrics, and the
  recent-cases table.

Modelling conventions:

* Dates are integers counting days (day granularity; the spec assigns
  `report_date` "no time component semantics beyond day granularity").
  `datetime.now()` is a parameter `today : Int`.
* Pseudo-random draws are supplied by oracle streams: `u : Nat → Nat` yields
  one natural number per discrete draw (consumed at a fixed index per draw:
  seven discrete draws per record), and `g : Nat → ℚ` yields the
  `np.random.normal(0, 0.1)` perturbations (two per record).  A bounded draw
  such as `random.randint(a, b)` reduces its oracle value modulo the size of
  the inclusive range, exactly the set of outcomes the source can produce.
* `random.choices(pop, weights=w, k=1)[0]` is the cumulative-weight selection
  over an integer weight table; `np.random.choice(pop, p=probs)` is the same
  with the probability table scaled by 100 to integers.
* Latitude/longitude are exact rationals; `round(x, 4)` is modelled with the
  integer rounding of `x * 10000` (float round-half-to-even is abstracted; no
  property below depends on coordinate values).
* pandas operations are modelled on `List CaseRecord`: boolean-mask filtering
  is `List.filter`; `sort_values("report_date")` is a merge sort on the date
  key; `sort_values(..., ascending=False)` is an ascending sort followed by a
  reversal of the indexer, which is how pandas `nargsort` implements
  descending order; `groupby`/`value_counts` count records per distinct key.
* `pd.DataFrame([])` has no columns, so `generate_surveillance_data` with a
  non-positive count raises `KeyError: 'report_date'` on the
  `pd.to_datetime(df["report_date"])` line; the generator is therefore
  modelled as returning `Except String (List CaseRecord)`.
-/

namespace Dashboard

/-- One surveillance event, the `CaseRecord` of the spec: the ten fields built
by both generators (`generate_data.py` record dict, `app.py` `load_data`). -/
structure CaseRecord where
  case_id : String
  report_date : Int
  region : String
  latitude : ℚ
  longitude : ℚ
  species : String
  syndrome : String
  severity : String
  status : String
  animals_affected : Nat
deriving DecidableEq

/-! ## Pseudo-random draw helpers (oracle-based model of `random` / `np.random`) -/

/-- `random.choice(l)` / uniform `np.random.choice(l)`: pick the element at the
oracle value reduced modulo the list length (`d` is a default that is never
reached on the nonempty lists the source uses). -/
def randChoice {α : Type} (l : List α) (d : α) (u : Nat) : α :=
  l.getD (u % l.length) d

/-- `random.randint(a, b)` (both bounds inclusive): reduce the oracle value
into the `b + 1 - a` possible outcomes. -/
def randint (a b u : Nat) : Nat :=
  a + u % (b + 1 - a)

/-- `np.random.randint(a, b)` (high bound exclusive). -/
def npRandint (a b u : Nat) : Nat :=
  a + u % (b - a)

/-- Cumulative-weight selection: walk the population/weight pairs, stopping in
the first bucket the (already reduced) draw falls into.  This is the
cumulative-weights-plus-bisect logic of `random.choices`. -/
def weightedChoice {α : Type} : List (α × Nat) → Nat → α → α
  | [], _, d => d
  | (a, w) :: rest, u, d => if u < w then a else weightedChoice rest (u - w) d

/-- `random.choices(pop, weights=ws, k=1)[0]`: reduce the oracle value modulo
the total weight, then select by cumulative weights. -/
def randChoices {α : Type} (pop : List α) (ws : List Nat) (u : Nat) (d : α) : α :=
  weightedChoice (pop.zip ws) (u % ws.sum) d

/-! ## `case_id` strings: `f"WHW-2024-{i+1:04d}"` -/

/-- Decimal digits of a natural number, most significant first, accumulated
onto `acc` (the digits of `str(m)` in Python). -/
def decDigits : Nat → List Char → List Char
  | 0, acc => acc
  | n + 1, acc => decDigits ((n + 1) / 10) (Nat.digitChar ((n + 1) % 10) :: acc)
decreasing_by exact Nat.div_lt_self (Nat.succ_pos n) (by decide)

/-- `str(m)` for a natural number. -/
def toDecimal (n : Nat) : List Char :=
  if n = 0 then ['0'] else decDigits n []

/-- `f"{m:04d}"`: left-pad the decimal digits with `'0'` to width 4 (numbers
already at least four digits wide are left unchanged). -/
def pad4 (l : List Char) : List Char :=
  List.replicate (4 - l.length) '0' ++ l

/-- The `case_id` of the record generated at 0-based index `i`:
`f"WHW-{2024}-{i+1:04d}"` in `generate_data.py`, `f"WHW-2024-{i+1:04d}"` in
`app.py` — the same string. -/
def caseId (i : Nat) : String :=
  "WHW-2024-" ++ String.mk (pad4 (toDecimal (i + 1)))

/-- Base-10 value of a digit string (the inverse reading of `toDecimal`). -/
def decimalVal (l : List Char) : Nat :=
  l.foldl (fun a c => a * 10 + (c.toNat - 48)) 0

theorem decDigits_succ (m : Nat) (acc : List Char) :
    decDigits (m + 1) acc
      = decDigits ((m + 1) / 10) (Nat.digitChar ((m + 1) % 10) :: acc) := by
  rw [decDigits]

theorem decDigits_acc (n : Nat) :
    ∀ acc : List Char, decDigits n acc = decDigits n [] ++ acc := by
  induction n using Nat.strong_induction_on with
  | _ n ih =>
    match n with
    | 0 => intro acc; simp [decDigits]
    | Nat.succ m =>
      intro acc
      have hlt : (m + 1) / 10 < m + 1 := Nat.div_lt_self (Nat.succ_pos m) (by decide)
      rw [decDigits_succ m acc, decDigits_succ m [],
          ih _ hlt (Nat.digitChar ((m + 1) % 10) :: acc),
          ih _ hlt (Nat.digitChar ((m + 1) % 10) :: [])]
      simp

theorem digitChar_val (k : Nat) (hk : k < 10) :
    (Nat.digitChar k).toNat - 48 = k := by
  interval_cases k <;> rfl

theorem foldl_decDigits (n : Nat) :
    0 < n → ∀ a : Nat,
      List.foldl (fun a c => a * 10 + (c.toNat - 48)) a (decDigits n [])
        = a * 10 ^ (decDigits n []).length + n := by
  induction n using Nat.strong_induction_on with
  | _ n ih =>
    match n with
    | 0 => intro h; exact absurd h (by decide)
    | Nat.succ m =>
      intro _ a
      have hlt : (m + 1) / 10 < m + 1 := Nat.div_lt_self (Nat.succ_pos m) (by decide)
      have hdig : ((m + 1) % 10) < 10 := Nat.mod_lt _ (by decide)
      have hsplit : decDigits (m + 1) []
          = decDigits ((m + 1) / 10) [] ++ [Nat.digitChar ((m + 1) % 10)] := by
        rw [decDigits_succ m [], decDigits_acc]
      by_cases hq : (m + 1) / 10 = 0
      · have hm : m + 1 < 10 := by omega
        rw [hsplit, hq]
        simp [decDigits, Nat.mod_eq_of_lt hm, digitChar_val (m + 1) hm]
      · have hq' : 0 < (m + 1) / 10 := Nat.pos_of_ne_zero hq
        rw [hsplit, List.foldl_append, ih _ hlt hq' a]
        simp only [List.foldl_cons, List.foldl_nil, List.length_append,
          List.length_cons, List.length_nil]
        rw [digitChar_val _ hdig]
        have hdm := Nat.div_add_mod (m + 1) 10
        ring_nf
        omega

theorem decimalVal_toDecimal (n : Nat) : decimalVal (toDecimal n) = n := by
  by_cases h : n = 0
  · subst h; rfl
  · unfold toDecimal decimalVal
    rw [if_neg h, foldl_decDigits n (Nat.pos_of_ne_zero h) 0]
    simp

theorem foldl_zeros (k : Nat) :
    ∀ a, List.foldl (fun a c => a * 10 + (c.toNat - 48)) a (List.replicate k '0')
      = a * 10 ^ k := by
  induction k with
  | zero => intro a; simp
  | succ k ih =>
    intro a
    rw [List.replicate_succ, List.foldl_cons, ih]
    have : (('0' : Char).toNat - 48) = 0 := rfl
    rw [this]
    ring

theorem decimalVal_pad4 (l : List Char) : decimalVal (pad4 l) = decimalVal l := by
  unfold pad4 decimalVal
  rw [List.foldl_append, foldl_zeros]
  simp

theorem caseId_injective : Function.Injective caseId := by
  intro i j h
  have hdata := congrArg String.data h
  unfold caseId at hdata
  rw [String.data_append, String.data_append] at hdata
  have hmk : (String.mk (pad4 (toDecimal (i + 1)))).data
      = pad4 (toDecimal (i + 1)) := rfl
  have hmk' : (String.mk (pad4 (toDecimal (j + 1)))).data
      = pad4 (toDecimal (j + 1)) := rfl
  rw [hmk, hmk'] at hdata
  have hpad := List.append_cancel_left hdata
  have hval := congrArg decimalVal hpad
  rw [decimalVal_pad4, decimalVal_pad4, decimalVal_toDecimal,
    decimalVal_toDecimal] at hval
  omega

/-! ## Fixed category tables (identical in both source files) -/

/-- `REGIONS`: region name with its (lat, lon) centroid. The source stores a
dict; `random.choice(list(REGIONS.keys()))` followed by the dict lookup is
modelled as picking the entry at the drawn index (keys are distinct, so the
lookup returns exactly that entry's coordinates). -/
def REGIONS : List (String × ℚ × ℚ) :=
  [("Maasai Mara", -14833/10000, 351333/10000),
   ("Amboseli", -26527/10000, 372606/10000),
   ("Tsavo East", -26857/10000, 387578/10000),
   ("Tsavo West", -30167/10000, 380667/10000),
   ("Samburu", 5833/10000, 375333/10000),
   ("Lake Nakuru", -3667/10000, 360833/10000),
   ("Nairobi NP", -13733/10000, 368581/10000),
   ("Meru", 500/10000, 381833/10000)]

def SPECIES : List String :=
  ["African Elephant", "Lion", "Zebra", "Giraffe", "Buffalo",
   "Wildebeest", "Hippopotamus", "Rhino", "Cheetah", "Hyena"]

def SYNDROMES : List String :=
  ["Respiratory", "Gastrointestinal", "Neurological", "Dermatological",
   "Musculoskeletal", "Sudden Death", "Reproductive", "Ocular"]

def SEVERITY : List String := ["Low", "Moderate", "High", "Critical"]

def STATUS : List String := ["Active", "Resolved", "Under Investigation"]

/-- `round(x, 4)`: round to four decimal places (integer rounding of
`x * 10000`; float round-half-to-even is abstracted). -/
def round4 (x : ℚ) : ℚ :=
  (round (x * 10000) : ℤ) / 10000

/-- Calendar month (1..12) of a day count from 1970-01-01, proleptic Gregorian
(`report_date.month` in the source): days-to-civil conversion. -/
def monthOfDay (z : Int) : Nat :=
  let z' := z + 719468
  let era := Int.fdiv z' 146097
  let doe := (z' - era * 146097).toNat
  let yoe := (doe - doe / 1460 + doe / 36524 - doe / 146096) / 365
  let doy := doe - (365 * yoe + yoe / 4 - yoe / 100)
  let mp := (5 * doy + 2) / 153
  if mp < 10 then mp + 3 else mp - 9

/-! ## The Record Generator (`src/data/generate_data.py`) -/

/-- One loop iteration of `generate_surveillance_data`: the record generated at
0-based index `i`. `u` supplies the `random`-module draws (seven per record:
region, date offset, species, syndrome, severity, status, animals affected),
`g` the `np.random.normal(0, 0.1)` perturbations (two per record), and `today`
is `datetime.now()` at day granularity (`end_date`). -/
def genRecord (u : Nat → Nat) (g : Nat → ℚ) (today : Int) (i : Nat) : CaseRecord :=
  let reg := randChoice REGIONS ("", 0, 0) (u (7 * i))
  let lat := reg.2.1 + g (2 * i)
  let lon := reg.2.2 + g (2 * i + 1)
  let start_date := today - 365
  let days_offset := randint 0 365 (u (7 * i + 1))
  let report_date := start_date + days_offset
  let species := randChoices SPECIES [15, 8, 20, 12, 18, 15, 5, 2, 3, 7] (u (7 * i + 2)) ""
  let month := monthOfDay report_date
  let syndrome_weights :=
    if [6, 7, 8].contains month then [25, 15, 10, 15, 10, 10, 5, 10]
    else if [3, 4, 5, 11].contains month then [15, 25, 10, 10, 10, 15, 10, 5]
    else [15, 15, 15, 15, 10, 15, 10, 5]
  let syndrome := randChoices SYNDROMES syndrome_weights (u (7 * i + 3)) ""
  let severity := randChoices SEVERITY [40, 35, 20, 5] (u (7 * i + 4)) ""
  let days_ago := today - report_date
  let status :=
    if days_ago < 14 then randChoices STATUS [60, 20, 20] (u (7 * i + 5)) ""
    else if days_ago < 60 then randChoices STATUS [30, 50, 20] (u (7 * i + 5)) ""
    else randChoices STATUS [10, 80, 10] (u (7 * i + 5)) ""
  let n_affected :=
    if severity = "Critical" then randint 5 20 (u (7 * i + 6))
    else if severity = "High" then randint 3 10 (u (7 * i + 6))
    else if severity = "Moderate" then randint 1 5 (u (7 * i + 6))
    else randint 1 3 (u (7 * i + 6))
  { case_id := caseId i
    report_date := report_date
    region := reg.1
    latitude := round4 lat
    longitude := round4 lon
    species := species
    syndrome := syndrome
    severity := severity
    status := status
    animals_affected := n_affected }

/-- `sort_values("report_date")` comparison key. -/
def dateLe (a b : CaseRecord) : Bool :=
  decide (a.report_date ≤ b.report_date)

/-- `generate_surveillance_data(n_records)`: build the record list, convert to
a DataFrame, parse the date column, and sort ascending by `report_date`.
With a non-positive `n_records` the loop body never runs, `pd.DataFrame([])`
has no columns, and `pd.to_datetime(df["report_date"])` raises
`KeyError: 'report_date'` — no collection is returned. -/
def generate_surveillance_data (n_records : Int) (u : Nat → Nat) (g : Nat → ℚ)
    (today : Int) : Except String (List CaseRecord) :=
  let data := (List.range n_records.toNat).map (genRecord u g today)
  if data.isEmpty then Except.error "KeyError: report_date"
  else Except.ok (data.mergeSort dateLe)

/-! ## The dashboard's inline generator (`load_data` in `src/app.py`) -/

/-- One loop iteration of `load_data`.  Same field order as `genRecord`, but
every draw comes from `np.random`: the date offset is
`np.random.randint(0, 365)` (high bound exclusive), the species probabilities
differ from the standalone generator's weights (`p` scaled by 100 gives
`[15, 8, 20, 12, 18, 12, 5, 2, 3, 5]`), the syndrome is a uniform choice, and
`animals_affected = np.random.randint(1, 10)` regardless of severity. -/
def loadRecord (u : Nat → Nat) (g : Nat → ℚ) (today : Int) (i : Nat) : CaseRecord :=
  let reg := randChoice REGIONS ("", 0, 0) (u (7 * i))
  let lat := reg.2.1 + g (2 * i)
  let lon := reg.2.2 + g (2 * i + 1)
  let start_date := today - 365
  let days_offset := npRandint 0 365 (u (7 * i + 1))
  let report_date := start_date + days_offset
  let species := randChoices SPECIES [15, 8, 20, 12, 18, 12, 5, 2, 3, 5] (u (7 * i + 2)) ""
  let syndrome := randChoice SYNDROMES "" (u (7 * i + 3))
  let severity := randChoices SEVERITY [40, 35, 20, 5] (u (7 * i + 4)) ""
  let days_ago := today - report_date
  let status :=
    if days_ago < 14 then randChoices STATUS [60, 20, 20] (u (7 * i + 5)) ""
    else if days_ago < 60 then randChoices STATUS [30, 50, 20] (u (7 * i + 5)) ""
    else randChoices STATUS [10, 80, 10] (u (7 * i + 5)) ""
  let n_affected := npRandint 1 10 (u (7 * i + 6))
  { case_id := caseId i
    report_date := report_date
    region := reg.1
    latitude := round4 lat
    longitude := round4 lon
    species := species
    syndrome := syndrome
    severity := severity
    status := status
    animals_affected := n_affected }

/-- `load_data()`: 500 records, then `df.sort_values("report_date")`. -/
def load_data (u : Nat → Nat) (g : Nat → ℚ) (today : Int) : List CaseRecord :=
  ((List.range 500).map (loadRecord u g today)).mergeSort dateLe

/-! ## The Filter Engine (`main` in `src/app.py`, "Apply filters" block) -/

/-- The sidebar filter state handed to the filtering block of `main`:
`date_range` (a tuple that only constrains when it has both endpoints,
`len(date_range) == 2`), the `"All"`-sentinel selectboxes for region and
species, and the two multiselect lists. -/
structure FilterSpec where
  dateRange : Option (Int × Int)
  selectedRegion : String
  selectedSpecies : String
  selectedSeverity : List String
  selectedStatus : List String
deriving DecidableEq

/-- The date clause: `report_date >= date_range[0] and report_date <= date_range[1]`,
applied only when both endpoints are present. -/
def dateClause (fs : FilterSpec) (r : CaseRecord) : Bool :=
  match fs.dateRange with
  | some (d0, d1) => decide (d0 ≤ r.report_date) && decide (r.report_date ≤ d1)
  | none => true

/-- `if selected_region != "All": filtered = filtered[region == selected_region]`. -/
def regionClause (fs : FilterSpec) (r : CaseRecord) : Bool :=
  if fs.selectedRegion ≠ "All" then r.region == fs.selectedRegion else true

def speciesClause (fs : FilterSpec) (r : CaseRecord) : Bool :=
  if fs.selectedSpecies ≠ "All" then r.species == fs.selectedSpecies else true

/-- `if selected_severity: filtered = filtered[severity.isin(selected_severity)]` —
note the Python truthiness test: an **empty** selection skips the clause. -/
def severityClause (fs : FilterSpec) (r : CaseRecord) : Bool :=
  if fs.selectedSeverity ≠ [] then fs.selectedSeverity.contains r.severity else true

def statusClause (fs : FilterSpec) (r : CaseRecord) : Bool :=
  if fs.selectedStatus ≠ [] then fs.selectedStatus.contains r.status else true

/-- The "Apply filters" block of `main`: `filtered_df = df.copy()` followed by
five conditional boolean-mask filters, in source order. -/
def applyFilters (fs : FilterSpec) (df : List CaseRecord) : List CaseRecord :=
  let f1 :=
    match fs.dateRange with
    | some (d0, d1) =>
        df.filter (fun r => decide (d0 ≤ r.report_date) && decide (r.report_date ≤ d1))
    | none => df
  let f2 := if fs.selectedRegion ≠ "All"
    then f1.filter (fun r => r.region == fs.selectedRegion) else f1
  let f3 := if fs.selectedSpecies ≠ "All"
    then f2.filter (fun r => r.species == fs.selectedSpecies) else f2
  let f4 := if fs.selectedSeverity ≠ []
    then f3.filter (fun r => fs.selectedSeverity.contains r.severity) else f3
  let f5 := if fs.selectedStatus ≠ []
    then f4.filter (fun r => fs.selectedStatus.contains r.status) else f4
  f5

/-- The conjunction of the five clauses (each `true` when its constraint is
absent). -/
def filterPred (fs : FilterSpec) (r : CaseRecord) : Bool :=
  dateClause fs r && regionClause fs r && speciesClause fs r &&
    severityClause fs r && statusClause fs r

/-! ## The Aggregation Layer (`src/app.py`) -/

/-- The weekly period of a day number, `report_date.dt.to_period("W")`:
weekly periods run Monday..Sunday (day 0 = 1970-01-01 was a Thursday, so day
`d` lies in week `⌊(d + 3) / 7⌋` of this numbering). -/
def weekOf (d : Int) : Int :=
  Int.fdiv (d + 3) 7

/-- `create_timeline`'s aggregation:
`df.groupby(report_date week).agg(case_id count, animals_affected sum)` —
one row per week present in the data, keys ascending (pandas `groupby` sorts
its keys), with the record count and the `animals_affected` sum. -/
def weeklySeries (df : List CaseRecord) : List (Int × Nat × Nat) :=
  (((df.map (fun r => weekOf r.report_date)).dedup).mergeSort
      (fun a b => decide (a ≤ b))).map
    (fun w => (w, df.countP (fun r => decide (weekOf r.report_date = w)),
      ((df.filter (fun r => decide (weekOf r.report_date = w))).map
        (fun r => r.animals_affected)).sum))

/-- `Series.value_counts()`: one row per distinct key present, with its count,
sorted by count descending (pandas sorts `value_counts` that way; the sum
properties below are order-independent). -/
def value_counts (key : CaseRecord → String) (df : List CaseRecord) :
    List (String × Nat) :=
  (((df.map key).dedup).map
      (fun v => (v, df.countP (fun r => decide (key r = v))))).mergeSort
    (fun a b => decide (b.2 ≤ a.2))

/-- `create_species_chart`: `df["species"].value_counts()`. -/
def speciesTally (df : List CaseRecord) : List (String × Nat) :=
  value_counts (fun r => r.species) df

/-- `create_syndrome_chart`: `df["syndrome"].value_counts()`. -/
def syndromeTally (df : List CaseRecord) : List (String × Nat) :=
  value_counts (fun r => r.syndrome) df

/-- Metric card 1: `len(filtered_df)`. -/
def total_cases (df : List CaseRecord) : Nat := df.length

/-- Metric card 2: `len(filtered_df[filtered_df["status"] == "Active"])`. -/
def active_cases (df : List CaseRecord) : Nat :=
  (df.filter (fun r => r.status == "Active")).length

/-- Metric card 3: `len(filtered_df[filtered_df["severity"] == "Critical"])`. -/
def critical_cases (df : List CaseRecord) : Nat :=
  (df.filter (fun r => r.severity == "Critical")).length

/-- Metric card 4: `filtered_df["animals_affected"].sum()` (pandas sums an
empty column to 0). -/
def total_animals (df : List CaseRecord) : Nat :=
  (df.map (fun r => r.animals_affected)).sum

/-- Metric card 5: `filtered_df["region"].nunique()`. -/
def regions_monitored (df : List CaseRecord) : Nat :=
  ((df.map (fun r => r.region)).dedup).length

/-- The "this month" delta on metric card 1:
`len(filtered_df[report_date > now - 30 days])`. -/
def cases_this_month (today : Int) (df : List CaseRecord) : Nat :=
  (df.filter (fun r => decide (today - 30 < r.report_date))).length

/-- `filtered_df.sort_values("report_date", ascending=False)`: pandas
`nargsort` computes an ascending argsort and reverses the indexer for
descending order, so tied keys come out in reversed relative order whenever
the underlying argsort leaves them in order (numpy's sort runs a stable
insertion sort on small ranges). -/
def sortByDateDesc (df : List CaseRecord) : List CaseRecord :=
  (df.mergeSort dateLe).reverse

/-- The recent-cases table:
`filtered_df.sort_values("report_date", ascending=False).head(10)`. -/
def recentTable (df : List CaseRecord) : List CaseRecord :=
  (sortByDateDesc df).take 10

/-! ## Helper lemmas -/

theorem applyFilters_eq_filter (fs : FilterSpec) (df : List CaseRecord) :
    applyFilters fs df = df.filter (filterPred fs) := by
  have hdate : (match fs.dateRange with
      | some (d0, d1) =>
          df.filter (fun r => decide (d0 ≤ r.report_date) && decide (r.report_date ≤ d1))
      | none => df) = df.filter (dateClause fs) := by
    cases hdr : fs.dateRange with
    | none =>
        have he : dateClause fs = fun _ => true := by
          funext r; simp [dateClause, hdr]
        rw [he, List.filter_true]
    | some p =>
        cases p with
        | _ d0 d1 =>
          apply List.filter_congr
          intro r _
          simp [dateClause, hdr]
  have hreg : ∀ l : List CaseRecord,
      (if fs.selectedRegion ≠ "All"
        then l.filter (fun r => r.region == fs.selectedRegion) else l)
        = l.filter (regionClause fs) := by
    intro l
    by_cases h : fs.selectedRegion ≠ "All"
    · rw [if_pos h]; apply List.filter_congr; intro r _; simp [regionClause, h]
    · rw [if_neg h]
      have he : regionClause fs = fun _ => true := by
        funext r; simp [regionClause, h]
      rw [he, List.filter_true]
  have hsp : ∀ l : List CaseRecord,
      (if fs.selectedSpecies ≠ "All"
        then l.filter (fun r => r.species == fs.selectedSpecies) else l)
        = l.filter (speciesClause fs) := by
    intro l
    by_cases h : fs.selectedSpecies ≠ "All"
    · rw [if_pos h]; apply List.filter_congr; intro r _; simp [speciesClause, h]
    · rw [if_neg h]
      have he : speciesClause fs = fun _ => true := by
        funext r; simp [speciesClause, h]
      rw [he, List.filter_true]
  have hsev : ∀ l : List CaseRecord,
      (if fs.selectedSeverity ≠ []
        then l.filter (fun r => fs.selectedSeverity.contains r.severity) else l)
        = l.filter (severityClause fs) := by
    intro l
    by_cases h : fs.selectedSeverity ≠ []
    · rw [if_pos h]; apply List.filter_congr; intro r _; simp [severityClause, h]
    · rw [if_neg h]
      have he : severityClause fs = fun _ => true := by
        funext r; simp [severityClause, h]
      rw [he, List.filter_true]
  have hst : ∀ l : List CaseRecord,
      (if fs.selectedStatus ≠ []
        then l.filter (fun r => fs.selectedStatus.contains r.status) else l)
        = l.filter (statusClause fs) := by
    intro l
    by_cases h : fs.selectedStatus ≠ []
    · rw [if_pos h]; apply List.filter_congr; intro r _; simp [statusClause, h]
    · rw [if_neg h]
      have he : statusClause fs = fun _ => true := by
        funext r; simp [statusClause, h]
      rw [he, List.filter_true]
  show (if fs.selectedStatus ≠ [] then _ else _) = _
  rw [hst, hsev, hsp, hreg, hdate, List.filter_filter, List.filter_filter,
    List.filter_filter, List.filter_filter]
  apply List.filter_congr
  intro a _
  unfold filterPred
  cases dateClause fs a <;> cases regionClause fs a <;> cases speciesClause fs a <;>
    cases severityClause fs a <;> cases statusClause fs a <;> rfl

/-- Counts per distinct key sum to the list length (the `value_counts` /
`groupby`-count sum identity). -/
theorem sum_countP_dedup {β : Type} [DecidableEq β] (key : CaseRecord → β)
    (df : List CaseRecord) :
    (((df.map key).dedup).map
      (fun v => df.countP (fun r => decide (key r = v)))).sum = df.length := by
  have h := List.sum_map_count_dedup_eq_length (df.map key)
  rw [List.length_map] at h
  rw [← h]
  apply congrArg
  apply List.map_congr_left
  intro v _
  rw [List.count_eq_countP, List.countP_map]
  apply List.countP_congr
  intro a _
  simp [Function.comp]

/-! ## Concrete fixtures for counterexamples and witnesses -/

/-- A concrete record (tied `report_date` with `recB`, distinct elsewhere). -/
def recA : CaseRecord :=
  { case_id := "WHW-2024-0001", report_date := 100, region := "Samburu",
    latitude := 0, longitude := 0, species := "Lion", syndrome := "Respiratory",
    severity := "High", status := "Active", animals_affected := 3 }

def recB : CaseRecord :=
  { case_id := "WHW-2024-0002", report_date := 100, region := "Meru",
    latitude := 0, longitude := 0, species := "Zebra", syndrome := "Ocular",
    severity := "Low", status := "Resolved", animals_affected := 2 }

/-- A filter state whose severity multiselect is present but empty, every
other control at its "no constraint" setting. -/
def fsEmptySeverity : FilterSpec :=
  { dateRange := none, selectedRegion := "All", selectedSpecies := "All",
    selectedSeverity := [], selectedStatus := [] }

/-! ## Claims -/

/-- **C9.** For every filter specification, the Filter Engine returns exactly
the records satisfying the conjunction of all present clauses (each clause is
`true` when its constraint is absent), as an order-preserving subsequence of
the Case Store; every returned record is a record of the store, unaltered, and
a store ascending by `report_date` yields a result ascending by
`report_date`. -/
theorem c9_filter_conjunction_pure (fs : FilterSpec) (df : List CaseRecord) :
    applyFilters fs df = df.filter (filterPred fs)
      ∧ (applyFilters fs df).Sublist df
      ∧ (∀ r ∈ applyFilters fs df, r ∈ df)
      ∧ (List.Pairwise (fun a b => a.report_date ≤ b.report_date) df →
          List.Pairwise (fun a b => a.report_date ≤ b.report_date)
            (applyFilters fs df)) := by
  have h := applyFilters_eq_filter fs df
  have hsub : (applyFilters fs df).Sublist df := by
    rw [h]; exact List.filter_sublist df
  exact ⟨h, hsub, fun r hr => hsub.subset hr,
    fun hs => List.Pairwise.sublist hsub hs⟩

/-- Witness for C9 at a concrete store and filter specification. -/
theorem c9_witness :
    applyFilters fsEmptySeverity [recA, recB]
        = ([recA, recB] : List CaseRecord).filter (filterPred fsEmptySeverity)
      ∧ (applyFilters fsEmptySeverity [recA, recB]).Sublist [recA, recB]
      ∧ (∀ r ∈ applyFilters fsEmptySeverity [recA, recB], r ∈ [recA, recB])
      ∧ List.Pairwise (fun a b => a.report_date ≤ b.report_date)
          (applyFilters fsEmptySeverity [recA, recB]) := by
  obtain ⟨h1, h2, h3, h4⟩ := c9_filter_conjunction_pure fsEmptySeverity [recA, recB]
  exact ⟨h1, h2, h3, h4 (by decide)⟩

/-- **C10.** Filtering is idempotent: applying the same filter specification
twice yields the same result as applying it once. -/
theorem c10_filter_idempotent (fs : FilterSpec) (df : List CaseRecord) :
    applyFilters fs (applyFilters fs df) = applyFilters fs df := by
  rw [applyFilters_eq_filter fs (applyFilters fs df), applyFilters_eq_filter fs df,
    List.filter_filter]
  apply List.filter_congr
  intro a _
  cases filterPred fs a <;> rfl

/-- **C1 counterexample.** The claim says a present-but-empty `severity_set`
yields zero records.  The code tests `if selected_severity:` — Python
truthiness — so an empty severity selection skips the severity clause
entirely: filtering a two-record store with an empty severity set returns both
records, not zero. -/
theorem c1_counterexample :
    fsEmptySeverity.selectedSeverity = []
      ∧ applyFilters fsEmptySeverity [recA, recB] = [recA, recB]
      ∧ (applyFilters fsEmptySeverity [recA, recB]).length ≠ 0 := by
  refine ⟨rfl, ?_, ?_⟩ <;> decide

/-- **C1 (amended).** An empty `severity_set` is treated exactly like an
absent severity constraint: the severity clause is skipped, and the filter
returns the records satisfying the remaining clauses, whatever their severity
(empty set and "unconstrained" are NOT distinct in this code). -/
theorem c1_empty_severity_unconstrained (fs : FilterSpec) (df : List CaseRecord)
    (h : fs.selectedSeverity = []) :
    applyFilters fs df = df.filter (fun r =>
      dateClause fs r && regionClause fs r && speciesClause fs r
        && statusClause fs r) := by
  rw [applyFilters_eq_filter]
  apply List.filter_congr
  intro a _
  have hsev : severityClause fs a = true := by
    simp [severityClause, h]
  unfold filterPred
  rw [hsev]
  cases dateClause fs a <;> cases regionClause fs a <;> cases speciesClause fs a <;>
    cases statusClause fs a <;> rfl

/-- Witness for the amended C1 at a concrete store and filter state. -/
theorem c1_empty_severity_unconstrained_witness :
    applyFilters fsEmptySeverity [recA, recB]
      = ([recA, recB] : List CaseRecord).filter (fun r =>
          dateClause fsEmptySeverity r && regionClause fsEmptySeverity r
            && speciesClause fsEmptySeverity r && statusClause fsEmptySeverity r) :=
  c1_empty_severity_unconstrained fsEmptySeverity [recA, recB] rfl

/-- **C5 counterexample.** The claim says ties on `report_date` are broken by
original collection order (stable sort).  pandas implements
`sort_values(ascending=False)` by reversing an ascending argsort, so two
records with equal dates come out of the recent table in the reverse of their
collection order. -/
theorem c5_counterexample :
    recA.report_date = recB.report_date ∧ recA ≠ recB
      ∧ recentTable [recA, recB] = [recB, recA]
      ∧ recentTable [recA, recB] ≠ [recA, recB] := by
  have hsort : ([recA, recB] : List CaseRecord).mergeSort dateLe = [recA, recB] :=
    List.mergeSort_of_sorted (by decide)
  refine ⟨rfl, by decide, ?_, ?_⟩
  · unfold recentTable sortByDateDesc
    rw [hsort]
    rfl
  · unfold recentTable sortByDateDesc
    rw [hsort]
    decide

/-- **C5 (amended).** The recent-table output has at most 10 rows and is
sorted by `report_date` descending; the order of records tied on
`report_date` is not the original collection order (the implementation
reverses an ascending sort, as the counterexample shows). -/
theorem c5_recent_table_sorted (df : List CaseRecord) :
    (recentTable df).length ≤ 10
      ∧ List.Pairwise (fun a b => b.report_date ≤ a.report_date)
          (recentTable df) := by
  constructor
  · unfold recentTable
    rw [List.length_take]
    exact min_le_left _ _
  · unfold recentTable sortByDateDesc
    have htrans : ∀ a b c : CaseRecord,
        dateLe a b = true → dateLe b c = true → dateLe a c = true := by
      intro a b c hab hbc
      simp only [dateLe, decide_eq_true_eq] at *
      exact le_trans hab hbc
    have htotal : ∀ a b : CaseRecord, (dateLe a b || dateLe b a) = true := by
      intro a b
      simp only [dateLe, Bool.or_eq_true, decide_eq_true_eq]
      exact le_total _ _
    have hs := List.sorted_mergeSort htrans htotal df
    have hrev : List.Pairwise (fun a b => b.report_date ≤ a.report_date)
        ((df.mergeSort dateLe).reverse) := by
      rw [List.pairwise_reverse]
      exact hs.imp (fun hab => of_decide_eq_true hab)
    exact List.Pairwise.sublist (List.take_sublist _ _) hrev

/-- Sorting a list does not change the sum of a mapped value. -/
theorem sum_map_mergeSort {α β : Type} [AddCommMonoid β] (g : α → β)
    (le : α → α → Bool) (l : List α) :
    ((l.mergeSort le).map g).sum = (l.map g).sum :=
  ((List.mergeSort_perm l le).map g).sum_eq

/-- **C6.** For every filtered collection (including the empty one), the
weekly-series case counts sum exactly to the total filtered record count, and
so do the species tally counts and the syndrome tally counts. -/
theorem c6_tally_sums (df : List CaseRecord) :
    ((weeklySeries df).map (fun x => x.2.1)).sum = df.length
      ∧ ((speciesTally df).map (fun x => x.2)).sum = df.length
      ∧ ((syndromeTally df).map (fun x => x.2)).sum = df.length := by
  refine ⟨?_, ?_, ?_⟩
  · unfold weeklySeries
    rw [List.map_map, sum_map_mergeSort]
    rw [← sum_countP_dedup (fun r => weekOf r.report_date) df]
    apply congrArg
    apply List.map_congr_left
    intro v _
    rfl
  · unfold speciesTally value_counts
    rw [sum_map_mergeSort, List.map_map]
    rw [← sum_countP_dedup (fun r => r.species) df]
    apply congrArg
    apply List.map_congr_left
    intro v _
    rfl
  · unfold syndromeTally value_counts
    rw [sum_map_mergeSort, List.map_map]
    rw [← sum_countP_dedup (fun r => r.syndrome) df]
    apply congrArg
    apply List.map_congr_left
    intro v _
    rfl

/-- **C7.** For the empty filtered collection, every scalar metric is zero
(total cases, this-month delta, active cases, critical cases, animals
affected, regions monitored) and the weekly series, the two tallies and the
recent table are empty.  Every aggregation in the model is a total function,
so none of them can fail on the empty input. -/
theorem c7_empty_aggregation :
    total_cases [] = 0 ∧ active_cases [] = 0 ∧ critical_cases [] = 0
      ∧ total_animals [] = 0 ∧ regions_monitored [] = 0
      ∧ (∀ today : Int, cases_this_month today [] = 0)
      ∧ weeklySeries [] = [] ∧ speciesTally [] = [] ∧ syndromeTally [] = []
      ∧ recentTable [] = [] := by
  refine ⟨rfl, rfl, rfl, rfl, rfl, fun _ => rfl, ?_, ?_, ?_, ?_⟩
  · simp [weeklySeries]
  · simp [speciesTally, value_counts]
  · simp [syndromeTally, value_counts]
  · simp [recentTable, sortByDateDesc]

/-- An oracle whose severity draw (index 4 of record 0) lands in the
`"Critical"` bucket (cumulative weights 40/35/20/5: values 95..99 select
`"Critical"`), every other draw 0. -/
def uCrit : Nat → Nat := fun k => if k = 4 then 95 else 0

/-- **C4.** The Record Generator fails when the requested record count is
non-positive: the generation loop body never runs, `pd.DataFrame([])` has no
columns, and the `pd.to_datetime(df["report_date"])` line raises a `KeyError`
that propagates to the caller at once — no (partial) collection is ever
returned. -/
theorem c4_nonpositive_count_fails (n : Int) (u : Nat → Nat) (g : Nat → ℚ)
    (today : Int) (h : n ≤ 0) :
    generate_surveillance_data n u g today = Except.error "KeyError: report_date"
      ∧ ∀ coll, generate_surveillance_data n u g today ≠ Except.ok coll := by
  have hz : n.toNat = 0 := Int.toNat_of_nonpos h
  have h1 : generate_surveillance_data n u g today
      = Except.error "KeyError: report_date" := by
    simp [generate_surveillance_data, hz]
  refine ⟨h1, fun coll hc => ?_⟩
  rw [h1] at hc
  exact Except.noConfusion hc

/-- Witness for C4 at the concrete count `-3`. -/
theorem c4_witness :
    (-3 : Int) ≤ 0
      ∧ generate_surveillance_data (-3) (fun _ => 0) (fun _ => 0) 0
          = Except.error "KeyError: report_date"
      ∧ ∀ coll, generate_surveillance_data (-3) (fun _ => 0) (fun _ => 0) 0
          ≠ Except.ok coll := by
  have h := c4_nonpositive_count_fails (-3) (fun _ => 0) (fun _ => 0) 0 (by decide)
  exact ⟨by decide, h.1, h.2⟩

/-- **C2.** In the Record Generator, every record whose severity is
`"Critical"` has `animals_affected` drawn by `random.randint(5, 20)` — the
widened Critical range, 5 to 20 inclusive — never by the Low/Moderate draws;
this holds both per generated record and for every record of a successfully
returned collection. -/
theorem c2_critical_range (u : Nat → Nat) (g : Nat → ℚ) (today : Int) :
    (∀ i, (genRecord u g today i).severity = "Critical" →
        5 ≤ (genRecord u g today i).animals_affected
          ∧ (genRecord u g today i).animals_affected ≤ 20)
      ∧ (∀ (n : Int) (coll : List CaseRecord),
          generate_surveillance_data n u g today = Except.ok coll →
          ∀ r ∈ coll, r.severity = "Critical" →
            5 ≤ r.animals_affected ∧ r.animals_affected ≤ 20) := by
  have hrec : ∀ i, (genRecord u g today i).severity = "Critical" →
      5 ≤ (genRecord u g today i).animals_affected
        ∧ (genRecord u g today i).animals_affected ≤ 20 := by
    intro i h
    have hs : (genRecord u g today i).severity
        = randChoices SEVERITY [40, 35, 20, 5] (u (7 * i + 4)) "" := rfl
    have ha : (genRecord u g today i).animals_affected
        = if randChoices SEVERITY [40, 35, 20, 5] (u (7 * i + 4)) "" = "Critical"
          then randint 5 20 (u (7 * i + 6))
          else if randChoices SEVERITY [40, 35, 20, 5] (u (7 * i + 4)) "" = "High"
          then randint 3 10 (u (7 * i + 6))
          else if randChoices SEVERITY [40, 35, 20, 5] (u (7 * i + 4)) "" = "Moderate"
          then randint 1 5 (u (7 * i + 6))
          else randint 1 3 (u (7 * i + 6)) := rfl
    rw [hs] at h
    rw [ha, if_pos h]
    unfold randint
    omega
  refine ⟨hrec, ?_⟩
  intro n coll hcoll r hr hcrit
  simp only [generate_surveillance_data] at hcoll
  by_cases hemp : ((List.range n.toNat).map (genRecord u g today)).isEmpty
  · rw [if_pos hemp] at hcoll
    exact Except.noConfusion hcoll
  · rw [if_neg hemp] at hcoll
    injection hcoll with hc
    rw [← hc] at hr
    have hr' : r ∈ (List.range n.toNat).map (genRecord u g today) :=
      (List.mergeSort_perm _ _).mem_iff.mp hr
    obtain ⟨i, _, hi⟩ := List.mem_map.mp hr'
    rw [← hi] at hcrit ⊢
    exact hrec i hcrit

/-- Witness for C2: a concrete oracle whose severity draw is Critical. -/
theorem c2_witness :
    (genRecord uCrit (fun _ => 0) 365 0).severity = "Critical"
      ∧ 5 ≤ (genRecord uCrit (fun _ => 0) 365 0).animals_affected
      ∧ (genRecord uCrit (fun _ => 0) 365 0).animals_affected ≤ 20 := by
  have hsev : (genRecord uCrit (fun _ => 0) 365 0).severity = "Critical" := by decide
  have h := (c2_critical_range uCrit (fun _ => 0) 365).1 0 hsev
  exact ⟨hsev, h.1, h.2⟩

/-- **C3.** In the dashboard's inline generator `load_data`, every record's
`animals_affected` is `np.random.randint(1, 10)`: between 1 and 9 inclusive,
computed from its own draw independently of the severity draw (and of every
other parameter), so a `"Critical"` record can have as few as 1 animal
affected. -/
theorem c3_load_data_affected_range (u : Nat → Nat) (g : Nat → ℚ) (today : Int) :
    (∀ i, 1 ≤ (loadRecord u g today i).animals_affected
        ∧ (loadRecord u g today i).animals_affected ≤ 9)
      ∧ (∀ r ∈ load_data u g today,
          1 ≤ r.animals_affected ∧ r.animals_affected ≤ 9)
      ∧ (∀ (u' : Nat → Nat) (g' : Nat → ℚ) (today' : Int) (i : Nat),
          u (7 * i + 6) = u' (7 * i + 6) →
          (loadRecord u g today i).animals_affected
            = (loadRecord u' g' today' i).animals_affected)
      ∧ (∃ (u₁ : Nat → Nat) (g₁ : Nat → ℚ) (t₁ : Int),
          ∃ r ∈ load_data u₁ g₁ t₁,
            r.severity = "Critical" ∧ r.animals_affected = 1) := by
  have hval : ∀ (u' : Nat → Nat) (g' : Nat → ℚ) (t' : Int) (i : Nat),
      (loadRecord u' g' t' i).animals_affected = npRandint 1 10 (u' (7 * i + 6)) :=
    fun _ _ _ _ => rfl
  have hrange : ∀ (u' : Nat → Nat) (g' : Nat → ℚ) (t' : Int) (i : Nat),
      1 ≤ (loadRecord u' g' t' i).animals_affected
        ∧ (loadRecord u' g' t' i).animals_affected ≤ 9 := by
    intro u' g' t' i
    rw [hval]
    unfold npRandint
    omega
  refine ⟨fun i => hrange u g today i, ?_, ?_, ?_⟩
  · intro r hr
    have hr' : r ∈ (List.range 500).map (loadRecord u g today) :=
      (List.mergeSort_perm _ _).mem_iff.mp hr
    obtain ⟨i, _, hi⟩ := List.mem_map.mp hr'
    rw [← hi]
    exact hrange u g today i
  · intro u' g' today' i hu
    rw [hval, hval, hu]
  · refine ⟨uCrit, fun _ => 0, 365, loadRecord uCrit (fun _ => 0) 365 0, ?_, ?_, ?_⟩
    · exact (List.mergeSort_perm _ _).mem_iff.mpr
        (List.mem_map.mpr ⟨0, List.mem_range.mpr (by decide), rfl⟩)
    · decide
    · decide

/-- Witness for C3: the bounds at a concrete record, and independence of the
affected count from the other oracle streams at concrete inputs. -/
theorem c3_witness :
    (1 ≤ (loadRecord uCrit (fun _ => 0) 365 0).animals_affected
        ∧ (loadRecord uCrit (fun _ => 0) 365 0).animals_affected ≤ 9)
      ∧ (loadRecord uCrit (fun _ => 0) 365 0).animals_affected
          = (loadRecord (fun _ => 0) (fun _ => 1) 0 0).animals_affected := by
  have h := c3_load_data_affected_range uCrit (fun _ => 0) 365
  exact ⟨h.1 0, h.2.2.1 (fun _ => 0) (fun _ => 1) 0 0 (by decide)⟩

/-- **C8.** For every positive requested count, the generated collection is a
permutation of the per-index records (so re-sorting by `report_date` only
reorders records, never reassigns ids); `case_id`s are pairwise distinct and
encode the 1-based generation index, and every `report_date` lies in the
trailing 365-day window `[today - 365, today]`. -/
theorem c8_generated_invariants (n : Int) (u : Nat → Nat) (g : Nat → ℚ)
    (today : Int) (hn : 0 < n) :
    ∃ coll, generate_surveillance_data n u g today = Except.ok coll
      ∧ (coll.map (fun r => r.case_id)).Nodup
      ∧ (∀ r ∈ coll, today - 365 ≤ r.report_date ∧ r.report_date ≤ today)
      ∧ coll.Perm ((List.range n.toNat).map (genRecord u g today))
      ∧ (∀ i, (genRecord u g today i).case_id = caseId i) := by
  set data := (List.range n.toNat).map (genRecord u g today) with hdata
  have hne : ¬ data.isEmpty = true := by
    rw [List.isEmpty_iff]
    intro hnil
    have hlen := congrArg List.length hnil
    rw [hdata, List.length_map, List.length_range] at hlen
    simp only [List.length_nil] at hlen
    omega
  refine ⟨data.mergeSort dateLe, ?_, ?_, ?_, List.mergeSort_perm data dateLe,
    fun i => rfl⟩
  · simp only [generate_surveillance_data]
    rw [← hdata, if_neg hne]
  · have hperm := (List.mergeSort_perm data dateLe).map (fun r => r.case_id)
    rw [hperm.nodup_iff, hdata, List.map_map]
    have hcomp : ((fun r : CaseRecord => r.case_id) ∘ genRecord u g today) = caseId := by
      funext i; rfl
    rw [hcomp]
    exact List.Nodup.map caseId_injective (List.nodup_range _)
  · intro r hr
    have hr' : r ∈ data := (List.mergeSort_perm data dateLe).mem_iff.mp hr
    rw [hdata] at hr'
    obtain ⟨i, _, hi⟩ := List.mem_map.mp hr'
    rw [← hi]
    have hdate : (genRecord u g today i).report_date
        = today - 365 + ((0 + u (7 * i + 1) % 366 : Nat) : Int) := rfl
    rw [hdate]
    have hmod : u (7 * i + 1) % 366 ≤ 365 := by omega
    omega

/-- Witness for C8 at the concrete count 1. -/
theorem c8_witness :
    (0 : Int) < 1
      ∧ ∃ coll, generate_surveillance_data 1 (fun _ => 0) (fun _ => 0) 0
          = Except.ok coll
        ∧ (coll.map (fun r => r.case_id)).Nodup
        ∧ (∀ r ∈ coll, (0 : Int) - 365 ≤ r.report_date ∧ r.report_date ≤ 0)
        ∧ coll.Perm ((List.range (1 : Int).toNat).map (genRecord (fun _ => 0) (fun _ => 0) 0))
        ∧ (∀ i, (genRecord (fun _ => 0) (fun _ => 0) 0 i).case_id = caseId i) :=
  ⟨by decide, c8_generated_invariants 1 (fun _ => 0) (fun _ => 0) 0 (by decide)⟩

end Dashboard
